import Mathlib

/-!
Verification development for the Rhubarb lip-sync prediction service
(`src/predict.py`).

The program is an orchestration pipeline: it receives base64 audio, decodes
it to a temp file, normalizes it to PCM wav with an external transcoder,
probes the duration, splits the audio into 30-second chunks, runs an external
phonetic analyzer on each chunk, merges the per-chunk mouth cues, and cleans
up temp files.

The external tools (base64 decoder, ffmpeg, ffprobe, rhubarb) are modelled by
an `Oracle` recording, for one run, how each external invocation behaves.
Machine reals (Python floats) are modelled as rationals.  The filesystem is
modelled as the list of paths this run created and has not yet removed;
external tools write their destination file exactly when they succeed.
Python `list.sort(key=...)` is a stable sort by the key; we model it with
`List.insertionSort`, which is stable for the same relation, since any two
stable sorts by a total transitive relation agree.
-/

namespace RhubarbPredict

/-- A mouth cue record `{start, end, value}` as produced by the analyzer. -/
structure MouthCue where
  start : ℚ
  «end» : ℚ
  value : String
deriving DecidableEq, Repr

/-- Parsed contents of an analyzer output file: a JSON object that may or may
not carry a `mouthCues` key (`none` models a parsed object without the key;
the merge loop checks `"mouthCues" in result`). -/
structure RhubarbData where
  mouthCues : Option (List MouthCue)
deriving DecidableEq, Repr

/-- Behaviour of one external `rhubarb` invocation: the process exit code,
its stderr text, and the outcome of opening and JSON-parsing the output file
(`none` models an exception while reading or parsing; only consulted when
`exitCode = 0`, since `run_rhubarb` returns early on a nonzero exit). -/
structure RhubarbRun where
  exitCode : ℤ
  stderr : String
  parsed : Option RhubarbData

/-- External-world behaviour for one run: whether `base64.b64decode`
succeeds, whether the ffmpeg conversion exits zero (and its stderr), the
result of parsing ffprobe's stdout as a number (`none`: `float()` raised),
and the behaviour of the per-chunk analyzer invocations. -/
structure Oracle where
  decodeOk : Bool
  convertOk : Bool
  convertStderr : String
  probed : Option ℚ
  rhubarb : ℕ → RhubarbRun

/-- Ordering used by line 85, `mouth_cues.sort(key=lambda x: x["start"])`:
compare cues by their `start` field. -/
def cueLE (a b : MouthCue) : Prop := a.start ≤ b.start

instance : DecidableRel cueLE :=
  fun a b => inferInstanceAs (Decidable (a.start ≤ b.start))

instance : IsTotal MouthCue cueLE := ⟨fun a b => le_total a.start b.start⟩

instance : IsTrans MouthCue cueLE := ⟨fun _ _ _ hab hbc => le_trans hab hbc⟩

/-- Temp-file paths of line 54: `/tmp/input-{timestamp}.wav`. -/
def input_path (ts : String) : String := "/tmp/input-" ++ ts ++ ".wav"

/-- Line 55: `/tmp/output-{timestamp}.json`.  Note no file is ever written
at this exact path; it only serves as the stem of the per-chunk outputs. -/
def output_path (ts : String) : String := "/tmp/output-" ++ ts ++ ".json"

/-- Line 64: `/tmp/wav-{timestamp}.wav`. -/
def wav_path (ts : String) : String := "/tmp/wav-" ++ ts ++ ".wav"

/-- Line 142: `/tmp/chunk-{timestamp}-{i}.wav`. -/
def chunk_path (ts : String) (i : ℕ) : String :=
  "/tmp/chunk-" ++ ts ++ "-" ++ toString i ++ ".wav"

/-- Line 71: `f"{output_path}-chunk{i}.json"`, the per-chunk analyzer
output file. -/
def chunk_output_path (ts : String) (i : ℕ) : String :=
  output_path ts ++ "-chunk" ++ toString i ++ ".json"

/-- Python `int()` applied to a rational: truncation toward zero.  A rational
in lowest terms with positive denominator truncates toward zero as the
T-division of its numerator by its denominator. -/
def pyInt (q : ℚ) : ℤ := q.num.tdiv q.den

/-- Line 126: `chunk_duration = 30` seconds. -/
def chunk_duration : ℚ := 30

/-- Line 138: `num_chunks = int(duration / chunk_duration) + 1`. -/
def num_chunks (duration : ℚ) : ℤ := pyInt (duration / chunk_duration) + 1

/-- Line 141: `start_time = i * chunk_duration` for loop iteration `i`. -/
def chunk_start_time (i : ℕ) : ℚ := i * chunk_duration

/-- Lines 145-154: the extraction window passed to the transcoder for chunk
`i` is `-ss start_time -t chunk_duration`, i.e. the half-open interval from
`start_time` to `start_time + chunk_duration` (clamped to end-of-stream by
the tool itself). -/
def chunk_window (i : ℕ) : ℚ × ℚ :=
  (chunk_start_time i, chunk_start_time i + chunk_duration)

/-- Lines 121-159, `split_audio_into_chunks`: given the probed duration, the
loop runs `i` over `range(num_chunks)` and returns the chunk paths in index
order.  (The duration probe itself and its failure wrapping live in
`process_audio_with_rhubarb` below, via `Oracle.probed`.) -/
def split_audio_into_chunks (ts : String) (duration : ℚ) : List String :=
  (List.range (num_chunks duration).toNat).map (chunk_path ts)

/-- The filesystem as seen by one run: the paths this run created and has
not yet removed, in creation order. -/
abbrev FS := List String

/-- Creation of a file at path `p` (idempotent, `-y` overwrite). -/
def touch (fs : FS) (p : String) : FS :=
  if fs.contains p then fs else fs ++ [p]

/-- `os.unlink` as used at line 76 (the chunk file exists at that point) and
the guarded `os.path.exists`/`os.unlink` of `cleanup_temp_files`: remove the
path if present. -/
def removeFile (fs : FS) (p : String) : FS := fs.erase p

/-- Lines 194-203, `cleanup_temp_files`: delete each listed path if it
exists, never raising. -/
def cleanup_temp_files (fs : FS) (file_paths : List String) : FS :=
  file_paths.foldl removeFile fs

/-- The dict `{"mouthCues": []}` returned on analyzer failure. -/
def empty_cues : RhubarbData := ⟨some []⟩

/-- Lines 164-192, `run_rhubarb` (value part): on a nonzero exit code the
stderr is printed and `{"mouthCues": []}` is returned; any exception while
reading or parsing the output file is caught and also yields
`{"mouthCues": []}`; otherwise the parsed data is returned as is.  The
function is total: it never propagates an exception. -/
def run_rhubarb (r : RhubarbRun) : RhubarbData :=
  if r.exitCode ≠ 0 then empty_cues
  else
    match r.parsed with
    | none => empty_cues
    | some data => data

/-- Lines 79-82: each per-chunk result contributes its `mouthCues` list when
the key is present (otherwise nothing), concatenated in chunk index order. -/
def concat_mouth_cues (all_results : List RhubarbData) : List MouthCue :=
  (all_results.map fun r => r.mouthCues.getD []).flatten

/-- Lines 79-85: concatenate the per-chunk cue lists, then
`mouth_cues.sort(key=lambda x: x["start"])`.  No rebasing of cue times by
the chunk offset happens anywhere. -/
def merge_mouth_cues (all_results : List RhubarbData) : List MouthCue :=
  (concat_mouth_cues all_results).insertionSort cueLE

/-- The Merger as the specification states it (section 4.5): rebase each
cue's `start` and `end` by the owning segment's `startOffsetSeconds`,
concatenate across segments, and stable-sort ascending by absolute `start`.
Modelled from the spec for comparison with `merge_mouth_cues`; the input is
the per-segment `(startOffsetSeconds, cues)` pairs. -/
def merge_spec (perSegmentResults : List (ℚ × List MouthCue)) : List MouthCue :=
  ((perSegmentResults.map fun p =>
      p.2.map fun c => MouthCue.mk (c.start + p.1) (c.«end» + p.1) c.value).flatten).insertionSort
    cueLE

/-- Lines 70-76, the per-chunk loop, threading the file state: for each
index `i`, the analyzer writes its output file exactly when it exits zero,
the chunk result is collected, and the chunk wav file is unlinked. -/
def analysis_loop (o : Oracle) (ts : String) : List ℕ → FS → List RhubarbData × FS
  | [], fs => ([], fs)
  | i :: rest, fs =>
    let r := o.rhubarb i
    let fs1 := if r.exitCode = 0 then touch fs (chunk_output_path ts i) else fs
    let fs2 := removeFile fs1 (chunk_path ts i)
    let step := analysis_loop o ts rest fs2
    (run_rhubarb r :: step.1, step.2)

/-- Error message for a `base64.b64decode` failure (line 59). -/
def decode_error_msg : String := "Invalid base64-encoded string"

/-- Lines 113-119: a nonzero ffmpeg exit raises, and the exception is
re-wrapped by the outer handler of `convert_to_wav`. -/
def conversion_error_msg (stderr : String) : String :=
  "Audio conversion failed: FFmpeg conversion failed: " ++ stderr

/-- Lines 135, 161-162: `float()` raising on unparsable ffprobe output is
caught and re-wrapped by `split_audio_into_chunks`. -/
def chunking_error_msg : String := "Audio chunking failed: could not convert string to float"

/-- Lines 50-95, `process_audio_with_rhubarb`: decode, convert, probe,
split, analyze each chunk, merge, clean up.  Returns the result (or the
raised error) together with the final file state.  On the success path the
cleanup list is `[input_path, wav_path, output_path]`; on the failure path
it is `[input_path, output_path]`.  External tools write their destination
file exactly when they succeed. -/
def process_audio_with_rhubarb (o : Oracle) (ts : String) :
    Except String (List MouthCue) × FS :=
  if o.decodeOk = false then
    (Except.error decode_error_msg,
      cleanup_temp_files [] [input_path ts, output_path ts])
  else
    let fs0 := touch [] (input_path ts)
    if o.convertOk = false then
      (Except.error (conversion_error_msg o.convertStderr),
        cleanup_temp_files fs0 [input_path ts, output_path ts])
    else
      let fs1 := touch fs0 (wav_path ts)
      match o.probed with
      | none =>
        (Except.error chunking_error_msg,
          cleanup_temp_files fs1 [input_path ts, output_path ts])
      | some duration =>
        let chunks := split_audio_into_chunks ts duration
        let fs2 := chunks.foldl touch fs1
        let step := analysis_loop o ts (List.range (num_chunks duration).toNat) fs2
        let mouth_cues := merge_mouth_cues step.1
        let fs4 := cleanup_temp_files step.2 [input_path ts, wav_path ts, output_path ts]
        (Except.ok mouth_cues, fs4)

/-- A JSON value occurring in a response object. -/
inductive JVal where
  | str : String → JVal
  | cues : List MouthCue → JVal
deriving DecidableEq, Repr

/-- A JSON object, as the literal key-value list the source builds. -/
abbrev JObj := List (String × JVal)

/-- Key access in a response object. -/
def get_key (o : JObj) (k : String) : Option JVal := o.lookup k

/-- Lines 25-29: the static readiness payload. -/
def wake_up_response : JObj :=
  [("status", JVal.str "OK"), ("message", JVal.str "Rhubarb model is ready"),
    ("mouthCues", JVal.cues [])]

/-- Lines 33-36: the empty-audio error payload. -/
def no_audio_response : JObj :=
  [("error", JVal.str "No audio data provided"), ("mouthCues", JVal.cues [])]

/-- The test at line 32, `not audio_data or audio_data.strip() == ""`:
`strip` removes leading and trailing whitespace, so the stripped string is
empty exactly when every character is whitespace, and the empty string
satisfies that vacuously.  We model the combined test by that equivalent
predicate. -/
def audio_data_blank (s : String) : Bool := s.data.all Char.isWhitespace

/-- Lines 16-48, `predict`: wake-up check, blank-audio check, then the
pipeline inside a try/except whose handler returns
`{"error": str(e), "mouthCues": []}`.  Total by construction: every raised
pipeline error is mapped to an error object, never propagated.  The second
component is the final file state of the run (no branch before the pipeline
creates a file). -/
def predict (o : Oracle) (ts audio_data : String) (wake_up : Bool) :
    JObj × FS :=
  if wake_up then (wake_up_response, [])
  else if audio_data_blank audio_data then (no_audio_response, [])
  else
    match process_audio_with_rhubarb o ts with
    | (Except.ok cues, fs) => ([("mouthCues", JVal.cues cues)], fs)
    | (Except.error e, fs) =>
      ([("error", JVal.str e), ("mouthCues", JVal.cues [])], fs)

/-! Concrete inputs used by counterexamples and witnesses. -/

/-- A cue reported by chunk 0 at local time 0. -/
def cueA : MouthCue := ⟨0, 1, "A"⟩

/-- A cue reported by chunk 1 at local time 1 (absolute time 31). -/
def cueB : MouthCue := ⟨1, 2, "B"⟩

/-- The cue of chunk 1 rebased by its segment offset of 30 seconds. -/
def cueB_abs : MouthCue := ⟨31, 32, "B"⟩

/-- Two cues with equal `start` from different chunks, for the stability
witness. -/
def cueT1 : MouthCue := ⟨1, 2, "T1"⟩

/-- Second cue of the tie, from the later chunk. -/
def cueT2 : MouthCue := ⟨1, 3, "T2"⟩

/-- Per-chunk results carrying the tie `cueT1`, `cueT2`. -/
def rs_tie : List RhubarbData := [⟨some [cueT1]⟩, ⟨some [cueT2]⟩]

/-- An oracle for a fully successful run of duration 5 seconds (one chunk)
whose analyzer exits zero and reports no cues. -/
def oracle_ok : Oracle :=
  ⟨true, true, "", some 5, fun _ => ⟨0, "", some ⟨some []⟩⟩⟩

/-- An oracle whose ffprobe output is unparsable, so the run fails after
the wav file has been written. -/
def oracle_probe_fail : Oracle :=
  ⟨true, true, "", none, fun _ => ⟨0, "", some ⟨some []⟩⟩⟩

/-- A failed analyzer invocation: nonzero exit. -/
def failed_run : RhubarbRun := ⟨1, "boom", some ⟨some [cueA]⟩⟩

/-- A failed analyzer invocation: exit zero but unreadable output. -/
def failed_parse_run : RhubarbRun := ⟨0, "", none⟩

/-- A surviving chunk result used by the failed-segment witness. -/
def survivor : RhubarbData := ⟨some [⟨2, 3, "C"⟩]⟩

/-- An oracle whose base64 decode fails (malformed input encoding), a fatal
pipeline error. -/
def oracle_decode_fail : Oracle :=
  ⟨false, true, "", some 5, fun _ => ⟨0, "", some ⟨some []⟩⟩⟩



/-! ### Helper lemmas -/

/-- Python truncation agrees with the floor on non-negative rationals. -/
theorem pyInt_eq_floor (q : ℚ) (h : 0 ≤ q) : pyInt q = ⌊q⌋ := by
  unfold pyInt
  rw [Int.tdiv_eq_ediv (Rat.num_nonneg.mpr h) (Int.natCast_nonneg q.den)]
  exact Rat.floor_def.symm

/-- Evaluation of the chunk count at duration 5. -/
theorem num_chunks_five : num_chunks 5 = 1 := by
  unfold num_chunks
  have h5 : (0:ℚ) ≤ 5 / chunk_duration := by norm_num [chunk_duration]
  rw [pyInt_eq_floor _ h5]
  have h0 : ⌊(5:ℚ) / chunk_duration⌋ = 0 := by
    rw [Int.floor_eq_zero_iff]
    constructor <;> norm_num [chunk_duration]
  rw [h0]
  decide

/-- A failed analyzer invocation (nonzero exit, or unreadable or unparsable
output) yields `{"mouthCues": []}`. -/
theorem run_rhubarb_fail_eq (r : RhubarbRun)
    (h : r.exitCode ≠ 0 ∨ r.parsed = none) : run_rhubarb r = empty_cues := by
  by_cases hc : r.exitCode ≠ 0
  · simp [run_rhubarb, hc]
  · rcases h with h | h
    · exact absurd h hc
    · simp [run_rhubarb, hc, h]

/-! ### Claim theorems -/

/-- C1 (code bug): the merge step does not rebase cue times.  At a run with
two chunks where chunk 0 reports a cue at local time 0 and chunk 1 reports a
cue at local time 1, the code's merge keeps chunk 1's cue at its
segment-local start 1, while the merge specified in section 4.5 (rebasing by
the owning segment's offset of `chunk_start_time 1 = 30`) places it at 31.
The code's output therefore carries segment-local, not absolute, time. -/
theorem merge_uses_segment_local_times :
    merge_mouth_cues [⟨some [cueA]⟩, ⟨some [cueB]⟩] = [cueA, cueB]
    ∧ merge_spec [(chunk_start_time 0, [cueA]), (chunk_start_time 1, [cueB])]
        = [cueA, cueB_abs]
    ∧ cueB.start = 1 ∧ cueB_abs.start = 31 ∧ cueB ≠ cueB_abs := by
  refine ⟨?_, ?_, rfl, rfl, by simp [cueB, cueB_abs]⟩
  · norm_num [merge_mouth_cues, concat_mouth_cues, cueA, cueB,
      List.insertionSort, List.orderedInsert, cueLE]
  · norm_num [merge_spec, cueA, cueB, cueB_abs, cueLE,
      chunk_start_time, chunk_duration, List.insertionSort, List.orderedInsert,
      MouthCue.mk.injEq]

/-- C2 (code bug): temp files survive the run.  On a fully successful
one-chunk run the per-chunk analyzer output file
`/tmp/output-t.json-chunk0.json` is still present at the end: the success
cleanup list holds only the input path, the wav path and the never-created
output stem.  On a run that fails at the duration probe, the wav file is
left behind: the failure cleanup list holds only the input and output
paths. -/
theorem successful_run_leaves_analyzer_output :
    (predict oracle_ok "t" "x" false).2 = [chunk_output_path "t" 0]
    ∧ (process_audio_with_rhubarb oracle_probe_fail "t").2 = [wav_path "t"] := by
  constructor
  · have hrange : List.range (num_chunks 5).toNat = [0] := by
      rw [num_chunks_five]
      rfl
    unfold predict
    rw [if_neg Bool.false_ne_true,
      if_neg (by decide : ¬(audio_data_blank "x" = true))]
    simp only [process_audio_with_rhubarb, oracle_ok, split_audio_into_chunks]
    simp only [hrange]
    decide
  · decide

/-- C3: for a probed duration `D ≥ 0` the segmenter produces exactly
`⌊D / 30⌋ + 1` chunk files, the extraction window of chunk `i` is
`[i * 30, i * 30 + 30)`, and consecutive windows are contiguous and
non-overlapping (window `i` ends exactly where window `i + 1` starts). -/
theorem split_chunk_count_and_offsets (ts : String) (d : ℚ) (h : 0 ≤ d) :
    ((split_audio_into_chunks ts d).length : ℤ) = ⌊d / chunk_duration⌋ + 1
    ∧ (∀ i : ℕ, chunk_window i = (i * chunk_duration, i * chunk_duration + chunk_duration))
    ∧ ∀ i : ℕ, (chunk_window i).2 = (chunk_window (i + 1)).1 := by
  refine ⟨?_, fun i => rfl, fun i => ?_⟩
  · unfold split_audio_into_chunks num_chunks
    rw [List.length_map, List.length_range]
    have h30 : (0:ℚ) ≤ d / chunk_duration := by
      apply div_nonneg h
      norm_num [chunk_duration]
    rw [pyInt_eq_floor _ h30]
    have hf : 0 ≤ ⌊d / chunk_duration⌋ := Int.floor_nonneg.mpr h30
    omega
  · simp only [chunk_window, chunk_start_time]
    push_cast
    ring_nf

/-- Witness for C3 at the concrete duration 45. -/
theorem split_chunk_count_and_offsets_witness :
    (0:ℚ) ≤ 45
    ∧ ((split_audio_into_chunks "t" 45).length : ℤ) = ⌊(45:ℚ) / chunk_duration⌋ + 1 :=
  ⟨by norm_num, (split_chunk_count_and_offsets "t" 45 (by norm_num)).1⟩

/-- C4: if the external analyzer exits nonzero, or reading/parsing its
output file fails, `run_rhubarb` raises nothing and returns the empty
contribution `{"mouthCues": []}` (totality of `run_rhubarb` is by
construction: it is a Lean function, every exception of the source being
caught inside it). -/
theorem run_rhubarb_failure_returns_empty (r : RhubarbRun)
    (h : r.exitCode ≠ 0 ∨ r.parsed = none) :
    run_rhubarb r = empty_cues :=
  run_rhubarb_fail_eq r h

/-- Witness for C4: a nonzero-exit invocation and an unparsable-output
invocation both produce the empty contribution. -/
theorem run_rhubarb_failure_returns_empty_witness :
    (failed_run.exitCode ≠ 0 ∨ failed_run.parsed = none)
    ∧ run_rhubarb failed_run = empty_cues
    ∧ run_rhubarb failed_parse_run = empty_cues :=
  ⟨Or.inl (by decide),
   run_rhubarb_failure_returns_empty failed_run (Or.inl (by decide)),
   run_rhubarb_failure_returns_empty failed_parse_run (Or.inr rfl)⟩

/-- C5: the merged sequence is sorted ascending by `start`, and the sort is
stable: two cues with equal `start` that occur in order in the concatenation
of the per-chunk results (chunks in index order) occur in the same order in
the merged output. -/
theorem merged_cues_sorted_and_stable (rs : List RhubarbData) :
    List.Sorted cueLE (merge_mouth_cues rs)
    ∧ ∀ a b : MouthCue, a.start = b.start →
        List.Sublist [a, b] (concat_mouth_cues rs) →
        List.Sublist [a, b] (merge_mouth_cues rs) := by
  constructor
  · exact List.sorted_insertionSort cueLE (concat_mouth_cues rs)
  · intro a b hab hsub
    exact List.pair_sublist_insertionSort (le_of_eq hab) hsub

/-- Witness for C5: two cues with equal `start` arriving from chunks 0 and 1
keep their relative order in the merged output. -/
theorem merged_cues_sorted_and_stable_witness :
    cueT1.start = cueT2.start
    ∧ List.Sublist [cueT1, cueT2] (concat_mouth_cues rs_tie)
    ∧ List.Sublist [cueT1, cueT2] (merge_mouth_cues rs_tie) := by
  have hsub : List.Sublist [cueT1, cueT2] (concat_mouth_cues rs_tie) :=
    List.Sublist.refl _
  exact ⟨rfl, hsub,
    (merged_cues_sorted_and_stable rs_tie).2 cueT1 cueT2 rfl hsub⟩

/-- C6: a wake-up request is answered by the static readiness payload, for
every oracle and every audio payload: no pipeline stage is consulted (the
result does not depend on the oracle) and the final file state is empty. -/
theorem predict_wake_up_bypasses_pipeline (o : Oracle) (ts audio_data : String) :
    predict o ts audio_data true = (wake_up_response, []) := rfl

/-- C7: with `wake_up = false` and empty-or-whitespace audio data, the
response is exactly `{"error": "No audio data provided", "mouthCues": []}`,
the pipeline is not consulted (the result does not depend on the oracle) and
no temp file is created. -/
theorem predict_blank_audio_error (o : Oracle) (ts a : String)
    (h : audio_data_blank a = true) :
    predict o ts a false = (no_audio_response, []) := by
  unfold predict
  rw [if_neg Bool.false_ne_true, if_pos h]

/-- Witness for C7 at the all-whitespace audio string. -/
theorem predict_blank_audio_error_witness :
    audio_data_blank " " = true
    ∧ predict oracle_ok "t" " " false = (no_audio_response, []) :=
  ⟨by decide, predict_blank_audio_error oracle_ok "t" " " (by decide)⟩

/-- C8: `predict` is a total function (no exception ever escapes: each
pipeline failure is an `Except.error` mapped to an error object), every
response object carries a `mouthCues` key, a response carrying an `error`
key carries an empty `mouthCues` list, every raised pipeline error surfaces
as exactly the error object `{"error": str(e), "mouthCues": []}`, and each
fatal input of the claim — malformed base64, transcoder failure, or a probe
failure (the code's segmentation failure, its `float()` parse raising) —
does make the pipeline raise. -/
theorem predict_always_returns_mouth_cues (o : Oracle) (ts a : String)
    (w : Bool) :
    (∃ cs, get_key (predict o ts a w).1 "mouthCues" = some (JVal.cues cs))
    ∧ (get_key (predict o ts a w).1 "error" = none
       ∨ get_key (predict o ts a w).1 "mouthCues" = some (JVal.cues []))
    ∧ (∀ e fs, w = false → audio_data_blank a = false →
        process_audio_with_rhubarb o ts = (Except.error e, fs) →
        predict o ts a w
          = ([("error", JVal.str e), ("mouthCues", JVal.cues [])], fs))
    ∧ (o.decodeOk = false ∨ o.convertOk = false ∨ o.probed = none →
        ∃ e fs, process_audio_with_rhubarb o ts = (Except.error e, fs)) := by
  refine ⟨?_, ?_, ?_, ?_⟩
  · unfold predict
    cases w
    · rw [if_neg Bool.false_ne_true]
      by_cases hb : audio_data_blank a = true
      · rw [if_pos hb]
        exact ⟨[], rfl⟩
      · rw [if_neg hb]
        rcases hp : process_audio_with_rhubarb o ts with ⟨res, fs⟩
        cases res with
        | error e => exact ⟨[], rfl⟩
        | ok cs => exact ⟨cs, rfl⟩
    · exact ⟨[], rfl⟩
  · unfold predict
    cases w
    · rw [if_neg Bool.false_ne_true]
      by_cases hb : audio_data_blank a = true
      · rw [if_pos hb]
        exact Or.inr rfl
      · rw [if_neg hb]
        rcases hp : process_audio_with_rhubarb o ts with ⟨res, fs⟩
        cases res with
        | error e => exact Or.inr rfl
        | ok cs => exact Or.inl rfl
    · exact Or.inl rfl
  · intro e fs hw hb hp
    subst hw
    unfold predict
    rw [if_neg Bool.false_ne_true,
      if_neg (by rw [hb]; exact Bool.false_ne_true), hp]
  · intro h
    rcases h with h | h | h
    · refine ⟨decode_error_msg,
        cleanup_temp_files [] [input_path ts, output_path ts], ?_⟩
      unfold process_audio_with_rhubarb
      rw [if_pos h]
    · by_cases hd : o.decodeOk = false
      · refine ⟨decode_error_msg,
          cleanup_temp_files [] [input_path ts, output_path ts], ?_⟩
        unfold process_audio_with_rhubarb
        rw [if_pos hd]
      · refine ⟨conversion_error_msg o.convertStderr,
          cleanup_temp_files (touch [] (input_path ts))
            [input_path ts, output_path ts], ?_⟩
        unfold process_audio_with_rhubarb
        rw [if_neg hd, if_pos h]
    · by_cases hd : o.decodeOk = false
      · refine ⟨decode_error_msg,
          cleanup_temp_files [] [input_path ts, output_path ts], ?_⟩
        unfold process_audio_with_rhubarb
        rw [if_pos hd]
      · by_cases hc : o.convertOk = false
        · refine ⟨conversion_error_msg o.convertStderr,
            cleanup_temp_files (touch [] (input_path ts))
              [input_path ts, output_path ts], ?_⟩
          unfold process_audio_with_rhubarb
          rw [if_neg hd, if_pos hc]
        · refine ⟨chunking_error_msg,
            cleanup_temp_files (touch (touch [] (input_path ts)) (wav_path ts))
              [input_path ts, output_path ts], ?_⟩
          unfold process_audio_with_rhubarb
          rw [if_neg hd, if_neg hc, h]

/-- Witness for C8 at a concrete fatal input: a malformed-base64 run raises
the decode error inside the pipeline, and `predict` surfaces it as the error
object with an empty `mouthCues` list. -/
theorem predict_always_returns_mouth_cues_witness :
    audio_data_blank "x" = false
    ∧ process_audio_with_rhubarb oracle_decode_fail "t"
        = (Except.error decode_error_msg, [])
    ∧ predict oracle_decode_fail "t" "x" false
        = ([("error", JVal.str decode_error_msg), ("mouthCues", JVal.cues [])],
            []) :=
  ⟨by decide, rfl,
   (predict_always_returns_mouth_cues oracle_decode_fail "t" "x" false).2.2.1
     decode_error_msg [] rfl (by decide) rfl⟩

/-- C9: a failed segment contributes exactly the empty list, so the merge of
`N` chunk results in which one failed equals the merge of the other `N - 1`
results: no exception, no duplicate, no reordering. -/
theorem merge_unaffected_by_failed_segment (r : RhubarbRun)
    (h : r.exitCode ≠ 0 ∨ r.parsed = none) (pre post : List RhubarbData) :
    merge_mouth_cues (pre ++ run_rhubarb r :: post)
      = merge_mouth_cues (pre ++ post) := by
  have he := run_rhubarb_fail_eq r h
  unfold merge_mouth_cues concat_mouth_cues
  rw [he]
  simp [empty_cues]

/-- Witness for C9: dropping a nonzero-exit segment between two surviving
chunk results leaves the merge unchanged. -/
theorem merge_unaffected_by_failed_segment_witness :
    (failed_run.exitCode ≠ 0 ∨ failed_run.parsed = none)
    ∧ merge_mouth_cues ([survivor] ++ run_rhubarb failed_run :: [survivor])
        = merge_mouth_cues ([survivor] ++ [survivor]) :=
  ⟨Or.inl (by decide),
   merge_unaffected_by_failed_segment failed_run (Or.inl (by decide))
     [survivor] [survivor]⟩

/-- C10 (implicit): the wake-up check precedes audio validation.  A request
with `wake_up = true` and blank audio data is answered by the readiness
payload, which is not the no-audio error payload. -/
theorem wake_up_precedes_audio_validation (o : Oracle) (ts a : String)
    (_h : audio_data_blank a = true) :
    predict o ts a true = (wake_up_response, [])
    ∧ (predict o ts a true).1 ≠ no_audio_response := by
  refine ⟨rfl, ?_⟩
  intro hc
  exact absurd (show wake_up_response = no_audio_response from hc) (by decide)

/-- Witness for C10 at the empty audio string. -/
theorem wake_up_precedes_audio_validation_witness :
    audio_data_blank "" = true
    ∧ predict oracle_ok "t" "" true = (wake_up_response, [])
    ∧ (predict oracle_ok "t" "" true).1 ≠ no_audio_response := by
  refine ⟨by decide, ?_, ?_⟩
  · exact (wake_up_precedes_audio_validation oracle_ok "t" "" (by decide)).1
  · exact (wake_up_precedes_audio_validation oracle_ok "t" "" (by decide)).2

end RhubarbPredict
